import Mathlib

/-!
Verification of the SENTINELL front-end core against its specification.

The definitions below are a shallow embedding of the TypeScript sources:
the data model from types.ts, the intake validation from
components/FileUpload.tsx (processFile), the risk banding, bounding-box
overlay and pie-chart rasterisation from the ForensicCockpit component,
the audio report chart from the AnalysisDisplay component, the analysis
service client operations from services/geminiService.ts (both observed
revisions), the App level state machine (handleModeChange,
handleFileSelect, resetAnalysis), and the live-monitor scam-risk update
and audio scheduling cursor from components/LiveMonitor.tsx.
-/

/-- AnalysisMode enumeration from types.ts. -/
inductive AnalysisMode where
  | Audio
  | Image
  deriving DecidableEq, Repr

/-- AudioArtifact from types.ts: name, description, MM:SS timestamp, severity. -/
structure AudioArtifact where
  name : String
  description : String
  timestamp : String
  severity : String
  deriving DecidableEq, Repr

/-- AudioAnalysisResult from types.ts (audio_artifacts schema revision). -/
structure AudioAnalysisResult where
  analysis_timestamp : String
  audio_artifacts : List AudioArtifact
  human_likelihood_score : String
  verdict : String
  explanation : String
  deriving DecidableEq, Repr

/-- VisualArtifact from types.ts; box_2d is an optional normalized
bounding box [ymin, xmin, ymax, xmax] on a 0-1000 scale. -/
structure VisualArtifact where
  name : String
  description : String
  severity : String
  box_2d : Option (ℚ × ℚ × ℚ × ℚ)
  deriving DecidableEq, Repr

/-- Metadata integrity sub-record of VisualAnalysisResult from types.ts. -/
structure MetadataAnalysis where
  exif_integrity : String
  software_traces : String
  lighting_consistency : String
  deriving DecidableEq, Repr

/-- VisualAnalysisResult from types.ts (risk_score schema revision). -/
structure VisualAnalysisResult where
  verdict : String
  risk_score : Int
  confidence : String
  visual_artifacts : List VisualArtifact
  metadata_analysis : MetadataAnalysis
  explanation : String
  deriving DecidableEq, Repr

/-- ScamRiskResult from types.ts. -/
structure ScamRiskResult where
  risk_score : Int
  risk_level : String
  warning_message : String
  detected_patterns : List String
  deriving DecidableEq, Repr

/-- TranscriptionResult from types.ts. -/
structure TranscriptionResult where
  transcript : String
  detected_language : String
  summary : String
  deriving DecidableEq, Repr

/-- The tagged union AnalysisResult = AudioAnalysisResult | VisualAnalysisResult. -/
inductive AnalysisResult where
  | audio (r : AudioAnalysisResult)
  | visual (r : VisualAnalysisResult)
  deriving DecidableEq, Repr

/-- FileData from types.ts (the File handle itself is not modelled,
only the fields the logic reads). -/
structure FileData where
  fileName : String
  base64 : String
  mimeType : String
  deriving DecidableEq, Repr

/-! ## Risk banding, gauge color and pie chart (ForensicCockpit) -/

/-- ForensicCockpit: `const isFake = result.risk_score > 70`. -/
def isFake (r : VisualAnalysisResult) : Bool :=
  decide (70 < r.risk_score)

/-- ForensicCockpit: `const isSuspicious = result.risk_score > 20 && result.risk_score <= 70`. -/
def isSuspicious (r : VisualAnalysisResult) : Bool :=
  decide (20 < r.risk_score) && decide (r.risk_score ≤ 70)

/-- The three banding classes the cockpit renders (synthetic red band,
suspicious yellow band, authentic emerald band). -/
inductive RiskBand where
  | authentic
  | suspicious
  | synthetic
  deriving DecidableEq, Repr

/-- The banding class selected by the nested ternaries in ForensicCockpit
(`isFake ? ... : isSuspicious ? ... : ...`), used for the gauge color, the
verdict banner styling and the PDF verdict line. -/
def riskBand (r : VisualAnalysisResult) : RiskBand :=
  if isFake r then .synthetic else if isSuspicious r then .suspicious else .authentic

/-- ForensicCockpit: `const gaugeColor = isFake ? '#ef4444' : isSuspicious ? '#eab308' : '#10b981'`. -/
def gaugeColor (r : VisualAnalysisResult) : String :=
  if isFake r then "#ef4444" else if isSuspicious r then "#eab308" else "#10b981"

/-- The observable content of the canvas rendered by generatePieChartImage:
the slice fill color, the large center label and the small caption. -/
structure PieChartImage where
  sliceColor : String
  centerLabel : String
  caption : String
  deriving DecidableEq, Repr

/-- ForensicCockpit.generatePieChartImage: the score slice is filled with
`isFake ? '#ef4444' : isSuspicious ? '#eab308' : '#10b981'`, the center text
is `` `${result.risk_score}%` `` and the caption below it is "RISK SCORE". -/
def generatePieChartImage (r : VisualAnalysisResult) : PieChartImage :=
  { sliceColor := if isFake r then "#ef4444" else if isSuspicious r then "#eab308" else "#10b981"
    centerLabel := toString r.risk_score ++ "%"
    caption := "RISK SCORE" }

/-! ## Bounding box overlay (ForensicCockpit JSX) -/

/-- A CSS absolute-positioned rectangle given in percent of the containing box. -/
structure OverlayRect where
  top : ℚ
  left : ℚ
  height : ℚ
  width : ℚ
  deriving DecidableEq, Repr

/-- ForensicCockpit artifact overlay: for `[ymin, xmin, ymax, xmax] = art.box_2d`
the JSX sets `top: ymin/10 %`, `left: xmin/10 %`, `height: (ymax-ymin)/10 %`,
`width: (xmax-xmin)/10 %`. -/
def boxOverlayPercent (box : ℚ × ℚ × ℚ × ℚ) : OverlayRect :=
  let (ymin, xmin, ymax, xmax) := box
  { top := ymin / 10
    left := xmin / 10
    height := (ymax - ymin) / 10
    width := (xmax - xmin) / 10 }

/-- The pixel rectangle the percent-based overlay occupies inside a rendered
image box of width W and height H pixels (CSS percent semantics: percent of
the containing block dimensions). Returned as (topPx, leftPx, heightPx, widthPx). -/
def overlayPixels (W H : ℚ) (box : ℚ × ℚ × ℚ × ℚ) : ℚ × ℚ × ℚ × ℚ :=
  let o := boxOverlayPercent box
  (H * o.top / 100, W * o.left / 100, H * o.height / 100, W * o.width / 100)

/-! ## Audio report chart (AnalysisDisplay.generateAudioPieChart) -/

/-- The digit-only projection performed by `scoreString.replace(/[^0-9]/g, '')`. -/
def digitsOnly (s : String) : String :=
  String.mk (s.data.filter Char.isDigit)

/-- AnalysisDisplay: `parseInt(scoreString.replace(/[^0-9]/g, '')) || 0` —
the digit characters of the score string read as a decimal number, and 0
when there are none (parseInt of an empty string is NaN, which `|| 0`
turns into 0). -/
def parseHumanScore (s : String) : Int :=
  (((digitsOnly s).data.foldl (fun n c => 10 * n + (c.toNat - 48)) 0 : Nat) : Int)

/-- The observable content of the canvas rendered by generateAudioPieChart:
the displayed score, the big center label, the caption and the slice color. -/
structure AudioPieChart where
  score : Int
  centerLabel : String
  caption : String
  color : String
  deriving DecidableEq, Repr

/-- AnalysisDisplay.generateAudioPieChart: parses the human score string,
then `chartScore = isSynthetic ? (100 - humanScore) : humanScore`,
`label = isSynthetic ? "AI PROBABILITY" : "HUMAN PROBABILITY"`,
`color = isSynthetic ? '#ef4444' : '#10b981'`, and the center text is
`` `${chartScore}%` ``. -/
def generateAudioPieChart (scoreString : String) (isSynthetic : Bool) : AudioPieChart :=
  let humanScore := parseHumanScore scoreString
  let chartScore := if isSynthetic then 100 - humanScore else humanScore
  { score := chartScore
    centerLabel := toString chartScore ++ "%"
    caption := if isSynthetic then "AI PROBABILITY" else "HUMAN PROBABILITY"
    color := if isSynthetic then "#ef4444" else "#10b981" }

/-- handleGenerateAudioReport passes
`generateAudioPieChart(result.human_likelihood_score, result.verdict === "SYNTHETIC AI")`. -/
def audioReportChart (r : AudioAnalysisResult) : AudioPieChart :=
  generateAudioPieChart r.human_likelihood_score (r.verdict == "SYNTHETIC AI")

/-! ## Intake validation (FileUpload.processFile) -/

/-- Outcome of the synchronous validation prefix of FileUpload.processFile:
either an early return with setError(message), or acceptance (the file is
read and handed to onFileSelect). -/
inductive IntakeOutcome where
  | rejected (errorMsg : String)
  | accepted
  deriving DecidableEq, Repr

/-- JavaScript `s.startsWith(p)`: the characters of p are a prefix of the
characters of s. -/
def strStartsWith (s p : String) : Bool :=
  p.data.isPrefixOf s.data

/-- FileUpload.processFile validation: `isAudio = file.type.startsWith('audio/')`,
`isImage = file.type.startsWith('image/')`; AUDIO mode rejects non-audio types,
IMAGE mode rejects non-image types, anything else proceeds to the read and
onFileSelect. -/
def processFile (mode : AnalysisMode) (fileType : String) : IntakeOutcome :=
  let isAudio := strStartsWith fileType "audio/"
  let isImage := strStartsWith fileType "image/"
  if mode = AnalysisMode.Audio ∧ isAudio = false then
    .rejected "Invalid file type. Please upload an audio file."
  else if mode = AnalysisMode.Image ∧ isImage = false then
    .rejected "Invalid file type. Please upload an image file."
  else
    .accepted

/-- Number of analysis service operations reachable from one intake of a file:
a rejected file returns before the FileReader is created and onFileSelect is
never invoked, so no service call happens; an accepted file is handed to
onFileSelect, whose handler (App.handleFileSelect) invokes exactly one
service operation. -/
def intakeNetworkCalls (mode : AnalysisMode) (fileType : String) : Nat :=
  match processFile mode fileType with
  | .rejected _ => 0
  | .accepted => 1

/-! ## Analysis service client (services/geminiService.ts)

Two revisions of the service module are present in the repository. The
revision with the audio_artifacts / risk_score schemas defines analyzeAudio,
analyzeImage, checkScamRisk and transcribeAudio; the earlier revision with
the technical_observations schema defines analyzeAudio, analyzeSpectrogram,
and a transcribeAudio / checkScamRisk pair that falls back to a default
result when JSON parsing fails. Every operation begins with `getClient()`,
which throws "API Key is missing" when `process.env.API_KEY` is absent or
empty, before any request object is built. The upstream call and the JSON
parse are modelled as parameters: `CallOutcome` is what awaiting
`generateContent` produced, and the parse function gives the outcome of
`JSON.parse` on a response text. -/

/-- Legacy VisualAnalysisResult shape ({verdict, confidence, visual_evidence})
used by analyzeSpectrogram in the earlier service revision. -/
structure LegacyVisualResult where
  verdict : String
  confidence : String
  visual_evidence : String
  deriving DecidableEq, Repr

/-- Errors a service operation can surface: the configuration error thrown
by getClient, a rejected upstream call, a thrown service-level Error, or an
uncaught JSON.parse exception. -/
inductive SvcErr where
  | config (msg : String)
  | upstream (msg : String)
  | service (msg : String)
  | parseFailure (text : String)
  deriving DecidableEq, Repr

/-- What awaiting `client.models.generateContent(...)` produced: a rejected
promise, or a response whose `.text` field may be absent. -/
inductive CallOutcome where
  | netError (msg : String)
  | reply (text : Option String)
  deriving DecidableEq, Repr

/-- Result of running one service operation: the value returned or error
thrown, together with the number of upstream network calls issued. -/
structure SvcResult (α : Type) where
  outcome : Except SvcErr α
  networkCalls : Nat

/-- geminiService.getClient: `if (!apiKey) throw new Error("API Key is missing")`;
a missing or empty `process.env.API_KEY` fails, anything else yields a client. -/
def getClient (apiKey : Option String) : Except SvcErr Unit :=
  match apiKey with
  | none => .error (.config "API Key is missing")
  | some k => if k = "" then .error (.config "API Key is missing") else .ok ()

/-- geminiService.analyzeAudio: getClient, then one generateContent call;
`if (!response.text) throw new Error("No response from AI")`; JSON.parse in a
try block whose catch throws "Analysis failed to produce valid JSON.". -/
def analyzeAudio (apiKey : Option String) (call : CallOutcome)
    (parse : String → Option AudioAnalysisResult) : SvcResult AudioAnalysisResult :=
  match getClient apiKey with
  | .error e => ⟨.error e, 0⟩
  | .ok () =>
    match call with
    | .netError m => ⟨.error (.upstream m), 1⟩
    | .reply none => ⟨.error (.service "No response from AI"), 1⟩
    | .reply (some t) =>
      match parse t with
      | some r => ⟨.ok r, 1⟩
      | none => ⟨.error (.service "Analysis failed to produce valid JSON."), 1⟩

/-- geminiService.analyzeImage: same contract as analyzeAudio with the
visual schema. -/
def analyzeImage (apiKey : Option String) (call : CallOutcome)
    (parse : String → Option VisualAnalysisResult) : SvcResult VisualAnalysisResult :=
  match getClient apiKey with
  | .error e => ⟨.error e, 0⟩
  | .ok () =>
    match call with
    | .netError m => ⟨.error (.upstream m), 1⟩
    | .reply none => ⟨.error (.service "No response from AI"), 1⟩
    | .reply (some t) =>
      match parse t with
      | some r => ⟨.ok r, 1⟩
      | none => ⟨.error (.service "Analysis failed to produce valid JSON."), 1⟩

/-- geminiService.analyzeSpectrogram (earlier revision): same contract as
analyzeAudio with the legacy visual schema. -/
def analyzeSpectrogram (apiKey : Option String) (call : CallOutcome)
    (parse : String → Option LegacyVisualResult) : SvcResult LegacyVisualResult :=
  match getClient apiKey with
  | .error e => ⟨.error e, 0⟩
  | .ok () =>
    match call with
    | .netError m => ⟨.error (.upstream m), 1⟩
    | .reply none => ⟨.error (.service "No response from AI"), 1⟩
    | .reply (some t) =>
      match parse t with
      | some r => ⟨.ok r, 1⟩
      | none => ⟨.error (.service "Analysis failed to produce valid JSON."), 1⟩

/-- geminiService.transcribeAudio (revision cited by the spec): getClient,
one generateContent call, throw "No response from AI" when text is absent;
but its catch block RETURNS a fallback
`{ transcript: response.text, detected_language: 'unknown', summary: 'Parsing failed' }`
instead of rethrowing when JSON.parse fails. -/
def transcribeAudio (apiKey : Option String) (call : CallOutcome)
    (parse : String → Option TranscriptionResult) : SvcResult TranscriptionResult :=
  match getClient apiKey with
  | .error e => ⟨.error e, 0⟩
  | .ok () =>
    match call with
    | .netError m => ⟨.error (.upstream m), 1⟩
    | .reply none => ⟨.error (.service "No response from AI"), 1⟩
    | .reply (some t) =>
      match parse t with
      | some r => ⟨.ok r, 1⟩
      | none => ⟨.ok { transcript := t, detected_language := "unknown", summary := "Parsing failed" }, 1⟩

/-- geminiService.checkScamRisk (revision cited by the spec): getClient, one
generateContent call, throw "No response from AI" when text is absent; but
its catch block RETURNS the fallback
`{ risk_level: "LOW", risk_score: 0, detected_patterns: [], warning_message: "Could not analyze" }`
when JSON.parse fails. -/
def checkScamRisk (apiKey : Option String) (call : CallOutcome)
    (parse : String → Option ScamRiskResult) : SvcResult ScamRiskResult :=
  match getClient apiKey with
  | .error e => ⟨.error e, 0⟩
  | .ok () =>
    match call with
    | .netError m => ⟨.error (.upstream m), 1⟩
    | .reply none => ⟨.error (.service "No response from AI"), 1⟩
    | .reply (some t) =>
      match parse t with
      | some r => ⟨.ok r, 1⟩
      | none => ⟨.ok { risk_score := 0, risk_level := "LOW", warning_message := "Could not analyze",
                       detected_patterns := [] }, 1⟩

/-- geminiService.transcribeAudio (later revision): `if (!response.text)
throw new Error("No response")`, then a bare `JSON.parse(response.text)`
whose SyntaxError propagates uncaught on malformed text. -/
def transcribeAudioV2 (apiKey : Option String) (call : CallOutcome)
    (parse : String → Option TranscriptionResult) : SvcResult TranscriptionResult :=
  match getClient apiKey with
  | .error e => ⟨.error e, 0⟩
  | .ok () =>
    match call with
    | .netError m => ⟨.error (.upstream m), 1⟩
    | .reply none => ⟨.error (.service "No response"), 1⟩
    | .reply (some t) =>
      match parse t with
      | some r => ⟨.ok r, 1⟩
      | none => ⟨.error (.parseFailure t), 1⟩

/-- geminiService.checkScamRisk (later revision): `if (!response.text)
throw new Error("No response")`, then a bare `JSON.parse(response.text)`
whose SyntaxError propagates uncaught on malformed text. -/
def checkScamRiskV2 (apiKey : Option String) (call : CallOutcome)
    (parse : String → Option ScamRiskResult) : SvcResult ScamRiskResult :=
  match getClient apiKey with
  | .error e => ⟨.error e, 0⟩
  | .ok () =>
    match call with
    | .netError m => ⟨.error (.upstream m), 1⟩
    | .reply none => ⟨.error (.service "No response"), 1⟩
    | .reply (some t) =>
      match parse t with
      | some r => ⟨.ok r, 1⟩
      | none => ⟨.error (.parseFailure t), 1⟩

/-! ## App level state machine (App.tsx: handleModeChange, handleFileSelect,
resetAnalysis)

The App component holds mode, fileData, isAnalyzing, result and error in
React state. handleFileSelect stores the file, raises isAnalyzing, clears
error and result, and awaits one service operation; the continuation after
the await stores the resolved result (or error message) and lowers
isAnalyzing with no check that the session was not reset in the meantime.
handleModeChange sets the new mode and calls resetAnalysis, which clears
fileData, result and error together; the outstanding promise, if any, is
abandoned, not cancelled. The `pending` counter models how many such
abandoned-or-live service promises are still unresolved; a resolve or
reject event with no pending promise is a no-op. -/

structure AppState where
  mode : AnalysisMode
  fileData : Option FileData
  isAnalyzing : Bool
  result : Option AnalysisResult
  error : Option String
  pending : Nat
  deriving DecidableEq, Repr

/-- Initial useState values of App: AUDIO mode, no file, not analyzing,
no result, no error. -/
def initialState : AppState :=
  { mode := .Audio, fileData := none, isAnalyzing := false,
    result := none, error := none, pending := 0 }

/-- Events driving the App state: the user selecting a file (validated
intake handing FileData to handleFileSelect), the user switching modes,
an in-flight service promise resolving or rejecting, and the reset button. -/
inductive AppEvent where
  | fileSelect (d : FileData)
  | modeChange (m : AnalysisMode)
  | resolve (r : AnalysisResult)
  | reject (msg : String)
  | resetClick
  deriving DecidableEq, Repr

/-- One transition of the App state machine, translated from App.tsx:
fileSelect runs the synchronous prefix of handleFileSelect and launches one
service call; modeChange is handleModeChange (setMode plus resetAnalysis);
resolve is the continuation `setResult(analysisResult)` followed by the
finally block `setIsAnalyzing(false)`; reject is the catch block
`setError(err.message || "An unexpected error occurred during analysis.")`
followed by the same finally block; resetClick is resetAnalysis. -/
def step (e : AppEvent) (s : AppState) : AppState :=
  match e with
  | .fileSelect d =>
      { s with fileData := some d, isAnalyzing := true, error := none,
               result := none, pending := s.pending + 1 }
  | .modeChange m =>
      { s with mode := m, fileData := none, result := none, error := none }
  | .resolve r =>
      if s.pending = 0 then s
      else { s with result := some r, isAnalyzing := false, pending := s.pending - 1 }
  | .reject msg =>
      if s.pending = 0 then s
      else { s with
               error := some (if msg = "" then "An unexpected error occurred during analysis." else msg),
               isAnalyzing := false, pending := s.pending - 1 }
  | .resetClick =>
      { s with fileData := none, result := none, error := none }

/-- The result the App JSX actually renders: the result block is inside the
`{fileData && ...}` region and is itself gated by `{result && !isAnalyzing && ...}`,
so a result is displayed only when a file is selected and no analysis is
running. -/
def displayedResult (s : AppState) : Option AnalysisResult :=
  match s.fileData with
  | none => none
  | some _ => if s.isAnalyzing then none else s.result

/-! ## Live monitor (components/LiveMonitor.tsx) -/

/-- LiveMonitor.debouncedScamCheck, storage step: after the quiet period the
risk is computed and `if (risk.risk_level !== 'LOW') setScamRisk(risk)` —
the new result replaces the held one wholesale when its level is not LOW,
and is dropped (previous state kept) when its level is LOW. -/
def applyScamRisk (prev : Option ScamRiskResult) (risk : ScamRiskResult) :
    Option ScamRiskResult :=
  if risk.risk_level ≠ "LOW" then some risk else prev

/-- LiveMonitor onmessage audio branch, one queued segment:
`nextStartTime = Math.max(nextStartTime, ctx.currentTime)`, then
`source.start(nextStartTime)` and `nextStartTime += audioBuffer.duration`.
Takes the cursor, the audio-context clock at arrival, and the decoded
buffer duration; returns the scheduled start time and the advanced cursor. -/
def scheduleSegment (cursor currentTime duration : ℚ) : ℚ × ℚ :=
  let start := max cursor currentTime
  (start, start + duration)

/-- Folding scheduleSegment over a sequence of arriving audio segments,
each given as (clock at arrival, buffer duration); returns the list of
(scheduled start, duration) pairs and the final cursor. -/
def scheduleAll (cursor : ℚ) : List (ℚ × ℚ) → List (ℚ × ℚ) × ℚ
  | [] => ([], cursor)
  | (t, d) :: rest =>
      let seg := scheduleSegment cursor t d
      let res := scheduleAll seg.2 rest
      ((seg.1, d) :: res.1, res.2)

/-- Scheduled segments play back-to-back without overlap: each segment ends
(start plus duration) no later than the next one starts, pairwise along the
whole queue. -/
def noOverlap (segs : List (ℚ × ℚ)) : Prop :=
  segs.Pairwise (fun a b => a.1 + a.2 ≤ b.1)

/-! ## Concrete fixtures used by witnesses and counterexamples -/

/-- A VisualAnalysisResult fixture with a given risk score. -/
def mkVisualResult (score : Int) : VisualAnalysisResult :=
  { verdict := "SYNTHETIC AI", risk_score := score, confidence := "90%",
    visual_artifacts := [],
    metadata_analysis := { exif_integrity := "STRIPPED",
                           software_traces := "Stable Diffusion",
                           lighting_consistency := "ARTIFICIAL/MISMATCHED" },
    explanation := "fixture" }

/-- An AudioAnalysisResult fixture matching the spec example scenario. -/
def sampleAudioResult : AudioAnalysisResult :=
  { analysis_timestamp := "0:12",
    audio_artifacts := [{ name := "Phase Continuity Error",
                          description := "metallic twang",
                          timestamp := "0:12", severity := "HIGH" }],
    human_likelihood_score := "4%",
    verdict := "SYNTHETIC AI",
    explanation := "fixture" }

/-- A FileData fixture for an uploaded audio file. -/
def sampleFile : FileData :=
  { fileName := "evidence.mp3", base64 := "QUJD", mimeType := "audio/mpeg" }

/-- A HIGH ScamRiskResult fixture. -/
def sampleHighRisk : ScamRiskResult :=
  { risk_score := 82, risk_level := "HIGH",
    warning_message := "Urgent payment demand detected",
    detected_patterns := ["gift cards"] }

/-- A LOW ScamRiskResult fixture. -/
def sampleLowRisk : ScamRiskResult :=
  { risk_score := 5, risk_level := "LOW",
    warning_message := "No significant indicators",
    detected_patterns := [] }

/-! ## Theorems -/

/-- C2: for every integer risk_score from 0 to 100 the cockpit assigns
exactly one of the three banding classes: 0-20 is the authentic class,
21-70 the suspicious class, 71-100 the synthetic class, with no gaps and
no overlaps at the boundaries 20/21 and 70/71. -/
theorem c2_risk_banding_partition (r : VisualAnalysisResult)
    (h0 : 0 ≤ r.risk_score) (h100 : r.risk_score ≤ 100) :
    (riskBand r = .authentic ↔ 0 ≤ r.risk_score ∧ r.risk_score ≤ 20) ∧
    (riskBand r = .suspicious ↔ 21 ≤ r.risk_score ∧ r.risk_score ≤ 70) ∧
    (riskBand r = .synthetic ↔ 71 ≤ r.risk_score ∧ r.risk_score ≤ 100) := by
  unfold riskBand isFake isSuspicious
  by_cases h1 : 70 < r.risk_score <;> by_cases h2 : 20 < r.risk_score <;>
    by_cases h3 : r.risk_score ≤ 70 <;> simp [h1, h2, h3] <;> omega

/-- C2 witness: at the boundary score 21 the banding is the suspicious
class, under the 0-100 range hypotheses. -/
theorem c2_risk_banding_witness :
    0 ≤ (mkVisualResult 21).risk_score ∧ (mkVisualResult 21).risk_score ≤ 100 ∧
    riskBand (mkVisualResult 21) = .suspicious := by
  refine ⟨by decide, by decide, ?_⟩
  exact (c2_risk_banding_partition (mkVisualResult 21) (by decide) (by decide)).2.1.mpr
    ⟨by decide, by decide⟩

/-- C3: intake validation accepts a file exactly when its declared media
type matches the active mode (any audio/* type in AUDIO mode, any image/*
type in IMAGE mode); every non-matching type is rejected with a non-empty
validation error message and no service operation is reachable from the
intake. -/
theorem c3_intake_validation (mode : AnalysisMode) (fileType : String) :
    (processFile mode fileType = .accepted ↔
      ((mode = .Audio ∧ strStartsWith fileType "audio/" = true) ∨
       (mode = .Image ∧ strStartsWith fileType "image/" = true))) ∧
    (∀ msg, processFile mode fileType = .rejected msg →
      msg ≠ "" ∧ intakeNetworkCalls mode fileType = 0) := by
  cases mode <;>
    cases ha : strStartsWith fileType "audio/" <;>
      cases hi : strStartsWith fileType "image/" <;>
        simp [processFile, intakeNetworkCalls, ha, hi]

/-- C3 witness: a text file in AUDIO mode is rejected with the audio
validation message and produces no network call. -/
theorem c3_intake_validation_witness :
    processFile .Audio "text/plain" =
      .rejected "Invalid file type. Please upload an audio file." ∧
    ("Invalid file type. Please upload an audio file." ≠ "" ∧
      intakeNetworkCalls .Audio "text/plain" = 0) := by
  refine ⟨by decide, ?_⟩
  exact (c3_intake_validation .Audio "text/plain").2 _ (by decide)

/-- C7: for a bounding box [ymin, xmin, ymax, xmax] on the 0-1000 scale the
overlay is placed at top ymin/10 percent, left xmin/10 percent, with height
(ymax-ymin)/10 percent and width (xmax-xmin)/10 percent; inside any rendered
box of nonzero width W and height H the occupied pixel fractions depend only
on the box (independence of the native pixel dimensions), and the box
[0, 0, 500, 1000] occupies exactly the top half: top 0, left 0, height H/2,
width W. -/
theorem c7_bounding_box_scaling (W H ymin xmin ymax xmax : ℚ)
    (hW : W ≠ 0) (hH : H ≠ 0) :
    boxOverlayPercent (ymin, xmin, ymax, xmax) =
      { top := ymin / 10, left := xmin / 10,
        height := (ymax - ymin) / 10, width := (xmax - xmin) / 10 } ∧
    (overlayPixels W H (ymin, xmin, ymax, xmax)).1 / H = ymin / 1000 ∧
    (overlayPixels W H (ymin, xmin, ymax, xmax)).2.1 / W = xmin / 1000 ∧
    (overlayPixels W H (ymin, xmin, ymax, xmax)).2.2.1 / H = (ymax - ymin) / 1000 ∧
    (overlayPixels W H (ymin, xmin, ymax, xmax)).2.2.2 / W = (xmax - xmin) / 1000 ∧
    overlayPixels W H (0, 0, 500, 1000) = (0, 0, H / 2, W) := by
  refine ⟨rfl, ?_, ?_, ?_, ?_, ?_⟩
  · simp only [overlayPixels, boxOverlayPercent]; field_simp; ring
  · simp only [overlayPixels, boxOverlayPercent]; field_simp; ring
  · simp only [overlayPixels, boxOverlayPercent]; field_simp; ring
  · simp only [overlayPixels, boxOverlayPercent]; field_simp; ring
  · simp only [overlayPixels, boxOverlayPercent, Prod.ext_iff]
    norm_num
    ring

/-- C7 witness: at a 1920 by 1080 rendered box the [0,0,500,1000] overlay is
the top half of the image. -/
theorem c7_bounding_box_witness :
    (1920 : ℚ) ≠ 0 ∧ (1080 : ℚ) ≠ 0 ∧
    overlayPixels 1920 1080 (0, 0, 500, 1000) = (0, 0, 540, 1920) := by
  refine ⟨by norm_num, by norm_num, ?_⟩
  have h := (c7_bounding_box_scaling 1920 1080 0 0 500 1000 (by norm_num) (by norm_num)).2.2.2.2.2
  rw [h]
  norm_num

/-- C8: the exported pie chart always draws the risk_score followed by a
percent sign as its center label, and fills the score slice with the color
of the same three-tier banding the renderer uses (red synthetic band,
yellow suspicious band, emerald authentic band); in particular a result
with risk_score 85 yields center label "85%" and the red band color. -/
theorem c8_pie_chart_label_and_color (r : VisualAnalysisResult) :
    (generatePieChartImage r).centerLabel = toString r.risk_score ++ "%" ∧
    (generatePieChartImage r).sliceColor = gaugeColor r ∧
    (generatePieChartImage r).sliceColor =
      (match riskBand r with
       | .synthetic => "#ef4444"
       | .suspicious => "#eab308"
       | .authentic => "#10b981") ∧
    (r.risk_score = 85 →
      (generatePieChartImage r).centerLabel = "85%" ∧
      (generatePieChartImage r).sliceColor = "#ef4444") := by
  refine ⟨rfl, rfl, ?_, ?_⟩
  · unfold generatePieChartImage riskBand
    by_cases h1 : isFake r <;> by_cases h2 : isSuspicious r <;> simp [h1, h2]
  · intro h
    unfold generatePieChartImage isFake
    rw [h]
    exact ⟨rfl, by norm_num⟩

/-- C8 witness: on the fixture with risk_score 85 the chart center label is
"85%" and the slice is the red band. -/
theorem c8_pie_chart_witness :
    (mkVisualResult 85).risk_score = 85 ∧
    (generatePieChartImage (mkVisualResult 85)).centerLabel = "85%" ∧
    (generatePieChartImage (mkVisualResult 85)).sliceColor = "#ef4444" := by
  exact ⟨rfl, (c8_pie_chart_label_and_color (mkVisualResult 85)).2.2.2 rfl⟩

/-- C10: the audio report chart parses the human_likelihood_score by keeping
only its digit characters (a string with no digits parses to 0); a
SYNTHETIC AI verdict charts 100 minus the parsed human score with the
"AI PROBABILITY" caption in red, any other verdict charts the parsed human
score with the "HUMAN PROBABILITY" caption in green; hence a SYNTHETIC AI
result whose score string has no digits renders a chart reading "100%". -/
theorem c10_audio_chart_score (r : AudioAnalysisResult) :
    (∀ s : String, (∀ c ∈ s.data, c.isDigit = false) → parseHumanScore s = 0) ∧
    (r.verdict = "SYNTHETIC AI" →
      (audioReportChart r).score = 100 - parseHumanScore r.human_likelihood_score ∧
      (audioReportChart r).centerLabel =
        toString (100 - parseHumanScore r.human_likelihood_score) ++ "%" ∧
      (audioReportChart r).caption = "AI PROBABILITY" ∧
      (audioReportChart r).color = "#ef4444") ∧
    (r.verdict ≠ "SYNTHETIC AI" →
      (audioReportChart r).score = parseHumanScore r.human_likelihood_score ∧
      (audioReportChart r).centerLabel =
        toString (parseHumanScore r.human_likelihood_score) ++ "%" ∧
      (audioReportChart r).caption = "HUMAN PROBABILITY" ∧
      (audioReportChart r).color = "#10b981") ∧
    (r.verdict = "SYNTHETIC AI" →
      (∀ c ∈ r.human_likelihood_score.data, c.isDigit = false) →
      (audioReportChart r).centerLabel = "100%") := by
  have hzero : ∀ s : String, (∀ c ∈ s.data, c.isDigit = false) → parseHumanScore s = 0 := by
    intro s hs
    have hempty : digitsOnly s = "" := by
      unfold digitsOnly
      have h : s.data.filter Char.isDigit = [] := by
        rw [List.filter_eq_nil_iff]
        intro a ha
        simp [hs a ha]
      rw [h]
    unfold parseHumanScore
    rw [hempty]
    rfl
  refine ⟨hzero, ?_, ?_, ?_⟩
  · intro hv
    unfold audioReportChart generateAudioPieChart
    have : (r.verdict == "SYNTHETIC AI") = true := by simp [hv]
    simp [this]
  · intro hv
    unfold audioReportChart generateAudioPieChart
    have : (r.verdict == "SYNTHETIC AI") = false := by simp [hv]
    simp [this]
  · intro hv hnod
    unfold audioReportChart generateAudioPieChart
    have hb : (r.verdict == "SYNTHETIC AI") = true := by simp [hv]
    have h0 := hzero r.human_likelihood_score hnod
    simp [hb, h0]
    rfl

/-- C10 witness: the fixture has verdict SYNTHETIC AI and score string "4%",
so the chart reads "96%" with the AI PROBABILITY caption in red; and a
SYNTHETIC AI result whose score string is "N/A" (no digits) reads "100%". -/
theorem c10_audio_chart_witness :
    sampleAudioResult.verdict = "SYNTHETIC AI" ∧
    (audioReportChart sampleAudioResult).centerLabel = "96%" ∧
    (audioReportChart sampleAudioResult).caption = "AI PROBABILITY" ∧
    (audioReportChart sampleAudioResult).color = "#ef4444" ∧
    (∀ c ∈ { sampleAudioResult with human_likelihood_score := "N/A"
             : AudioAnalysisResult }.human_likelihood_score.data, c.isDigit = false) ∧
    (audioReportChart { sampleAudioResult with
                        human_likelihood_score := "N/A" }).centerLabel = "100%" := by
  have h1 := (c10_audio_chart_score sampleAudioResult).2.1 rfl
  have h2 := (c10_audio_chart_score { sampleAudioResult with
               human_likelihood_score := "N/A" }).2.2.2 rfl (by decide)
  refine ⟨rfl, ?_, h1.2.2.1, h1.2.2.2, by decide, h2⟩
  have := h1.2.1
  rw [this]
  decide

/-- C1 counterexample: from the initial state, select a file (the session is
then Analyzing), switch the mode to IMAGE, and let the abandoned in-flight
operation resolve: the continuation stores the resolved result as the
session current result, contradicting the claim that it is discarded and
never stored. -/
theorem c1_stale_result_stored_counterexample :
    (step (.fileSelect sampleFile) initialState).isAnalyzing = true ∧
    (step (.modeChange .Image) (step (.fileSelect sampleFile) initialState)).result = none ∧
    (step (.resolve (.audio sampleAudioResult))
      (step (.modeChange .Image)
        (step (.fileSelect sampleFile) initialState))).result =
      some (.audio sampleAudioResult) ∧
    some (AnalysisResult.audio sampleAudioResult) ≠ none := by
  refine ⟨rfl, rfl, rfl, by decide⟩

/-- C1 amended: switching AnalysisMode while Analyzing resets mode, file,
result and error to their Idle values, but the in-flight operation is
abandoned rather than discarded: when it later resolves, its result IS
stored as the session current result; that stale result is nevertheless not
rendered into the new mode view, because the result display is gated on a
selected file, which the mode switch cleared. -/
theorem c1_mode_switch_reset_and_stale_storage (s : AppState) (m : AnalysisMode)
    (r : AnalysisResult) (_hA : s.isAnalyzing = true) (hp : 0 < s.pending) :
    (step (.modeChange m) s).mode = m ∧
    (step (.modeChange m) s).fileData = none ∧
    (step (.modeChange m) s).result = none ∧
    (step (.modeChange m) s).error = none ∧
    (step (.resolve r) (step (.modeChange m) s)).result = some r ∧
    displayedResult (step (.resolve r) (step (.modeChange m) s)) = none := by
  have hp0 : ¬ s.pending = 0 := by omega
  refine ⟨rfl, rfl, rfl, rfl, ?_, ?_⟩
  · simp [step, hp0]
  · simp [step, displayedResult, hp0]

/-- C1 witness: instantiating the amended theorem right after a file
selection (Analyzing, one pending operation), a switch to IMAGE mode
followed by the stale resolution stores the result yet displays nothing. -/
theorem c1_mode_switch_witness :
    ((step (.fileSelect sampleFile) initialState).isAnalyzing = true ∧
      0 < (step (.fileSelect sampleFile) initialState).pending) ∧
    ((step (.resolve (.audio sampleAudioResult))
        (step (.modeChange .Image)
          (step (.fileSelect sampleFile) initialState))).result =
      some (.audio sampleAudioResult) ∧
    displayedResult (step (.resolve (.audio sampleAudioResult))
        (step (.modeChange .Image)
          (step (.fileSelect sampleFile) initialState))) = none) := by
  have h := c1_mode_switch_reset_and_stale_storage
    (step (.fileSelect sampleFile) initialState) .Image
    (.audio sampleAudioResult) rfl (by decide)
  exact ⟨⟨rfl, by decide⟩, h.2.2.2.2⟩

/-- C6 counterexample: with a HIGH risk result held, a newly computed LOW
risk result does not supersede it — the debounced check stores a new result
only when its level is not LOW, so the held risk state keeps the old HIGH
result, contradicting the claim for every possible risk level including LOW. -/
theorem c6_low_risk_not_stored_counterexample :
    sampleLowRisk.risk_level = "LOW" ∧
    applyScamRisk (some sampleHighRisk) sampleLowRisk = some sampleHighRisk ∧
    applyScamRisk (some sampleHighRisk) sampleLowRisk ≠ some sampleLowRisk := by
  refine ⟨rfl, by decide, by decide⟩

/-- C6 amended: a newly computed ScamRiskResult supersedes the previously
held one wholesale (never merged) exactly when its risk_level is not LOW;
a LOW result is discarded and the previous risk state is retained unchanged. -/
theorem c6_risk_supersede_unless_low (prev : Option ScamRiskResult)
    (risk : ScamRiskResult) :
    (risk.risk_level ≠ "LOW" → applyScamRisk prev risk = some risk) ∧
    (risk.risk_level = "LOW" → applyScamRisk prev risk = prev) := by
  constructor
  · intro h
    simp [applyScamRisk, h]
  · intro h
    simp [applyScamRisk, h]

/-- C6 witness: a HIGH result supersedes a held LOW result wholesale. -/
theorem c6_risk_supersede_witness :
    sampleHighRisk.risk_level ≠ "LOW" ∧
    applyScamRisk (some sampleLowRisk) sampleHighRisk = some sampleHighRisk := by
  exact ⟨by decide, (c6_risk_supersede_unless_low (some sampleLowRisk) sampleHighRisk).1
    (by decide)⟩

/-- C4 counterexample: with a credential configured and a response whose
text is present but not parseable as the schema, transcribeAudio returns a
fabricated fallback result (the raw text as transcript) and checkScamRisk
returns a fabricated LOW fallback, instead of failing as the claim states
for every operation. -/
theorem c4_fallback_counterexample :
    (transcribeAudio (some "key") (.reply (some "not json")) (fun _ => none)).outcome =
      .ok { transcript := "not json", detected_language := "unknown",
            summary := "Parsing failed" } ∧
    (checkScamRisk (some "key") (.reply (some "not json")) (fun _ => none)).outcome =
      .ok { risk_score := 0, risk_level := "LOW",
            warning_message := "Could not analyze", detected_patterns := [] } := by
  exact ⟨rfl, rfl⟩

/-- C4 amended: with a credential configured, every operation fails when the
upstream response text is absent, and analyzeAudio, analyzeImage and
analyzeSpectrogram also fail with a ServiceError when the text is present
but not parseable as the declared schema; however transcribeAudio and
checkScamRisk, in the service revision the claim cites, return a fallback
result on unparseable text instead of failing (the later revision of the
pair surfaces the uncaught parse exception). -/
theorem c4_parse_failure_behavior (k t : String) (hk : k ≠ "") :
    (∀ pa, (analyzeAudio (some k) (.reply none) pa).outcome =
      .error (.service "No response from AI")) ∧
    (∀ pa, pa t = none → (analyzeAudio (some k) (.reply (some t)) pa).outcome =
      .error (.service "Analysis failed to produce valid JSON.")) ∧
    (∀ pv, (analyzeImage (some k) (.reply none) pv).outcome =
      .error (.service "No response from AI")) ∧
    (∀ pv, pv t = none → (analyzeImage (some k) (.reply (some t)) pv).outcome =
      .error (.service "Analysis failed to produce valid JSON.")) ∧
    (∀ ps, (analyzeSpectrogram (some k) (.reply none) ps).outcome =
      .error (.service "No response from AI")) ∧
    (∀ ps, ps t = none → (analyzeSpectrogram (some k) (.reply (some t)) ps).outcome =
      .error (.service "Analysis failed to produce valid JSON.")) ∧
    (∀ pt, (transcribeAudio (some k) (.reply none) pt).outcome =
      .error (.service "No response from AI")) ∧
    (∀ pt, pt t = none → (transcribeAudio (some k) (.reply (some t)) pt).outcome =
      .ok { transcript := t, detected_language := "unknown", summary := "Parsing failed" }) ∧
    (∀ pc, (checkScamRisk (some k) (.reply none) pc).outcome =
      .error (.service "No response from AI")) ∧
    (∀ pc, pc t = none → (checkScamRisk (some k) (.reply (some t)) pc).outcome =
      .ok { risk_score := 0, risk_level := "LOW",
            warning_message := "Could not analyze", detected_patterns := [] }) ∧
    (∀ pt, pt t = none → (transcribeAudioV2 (some k) (.reply (some t)) pt).outcome =
      .error (.parseFailure t)) ∧
    (∀ pc, pc t = none → (checkScamRiskV2 (some k) (.reply (some t)) pc).outcome =
      .error (.parseFailure t)) := by
  refine ⟨?_, ?_, ?_, ?_, ?_, ?_, ?_, ?_, ?_, ?_, ?_, ?_⟩ <;>
    first
    | (intro p
       simp [analyzeAudio, analyzeImage, analyzeSpectrogram, transcribeAudio,
             checkScamRisk, transcribeAudioV2, checkScamRiskV2, getClient, hk]
       done)
    | (intro p hp
       simp [analyzeAudio, analyzeImage, analyzeSpectrogram, transcribeAudio,
             checkScamRisk, transcribeAudioV2, checkScamRiskV2, getClient, hk, hp])

/-- C4 witness: instantiating the amended theorem at the key "key" and the
unparseable text "garbled": analyzeAudio fails with the ServiceError and
transcribeAudio returns its fallback record. -/
theorem c4_parse_failure_witness :
    ("key" : String) ≠ "" ∧
    (analyzeAudio (some "key") (.reply (some "garbled")) (fun _ => none)).outcome =
      .error (.service "Analysis failed to produce valid JSON.") ∧
    (transcribeAudio (some "key") (.reply (some "garbled")) (fun _ => none)).outcome =
      .ok { transcript := "garbled", detected_language := "unknown",
            summary := "Parsing failed" } := by
  have h := c4_parse_failure_behavior "key" "garbled" (by decide)
  exact ⟨by decide, h.2.1 (fun _ => none) rfl, h.2.2.2.2.2.2.2.1 (fun _ => none) rfl⟩

/-- C5: with no API credential configured (absent or empty), every analysis
service operation fails with the configuration error thrown by getClient
and issues zero upstream network calls, for every possible upstream
behavior and parse outcome. -/
theorem c5_missing_credential_fails_fast :
    (∀ call pa, analyzeAudio none call pa =
      ⟨.error (.config "API Key is missing"), 0⟩ ∧
      analyzeAudio (some "") call pa = ⟨.error (.config "API Key is missing"), 0⟩) ∧
    (∀ call pv, analyzeImage none call pv =
      ⟨.error (.config "API Key is missing"), 0⟩ ∧
      analyzeImage (some "") call pv = ⟨.error (.config "API Key is missing"), 0⟩) ∧
    (∀ call ps, analyzeSpectrogram none call ps =
      ⟨.error (.config "API Key is missing"), 0⟩ ∧
      analyzeSpectrogram (some "") call ps = ⟨.error (.config "API Key is missing"), 0⟩) ∧
    (∀ call pt, transcribeAudio none call pt =
      ⟨.error (.config "API Key is missing"), 0⟩ ∧
      transcribeAudio (some "") call pt = ⟨.error (.config "API Key is missing"), 0⟩) ∧
    (∀ call pc, checkScamRisk none call pc =
      ⟨.error (.config "API Key is missing"), 0⟩ ∧
      checkScamRisk (some "") call pc = ⟨.error (.config "API Key is missing"), 0⟩) ∧
    (∀ call pt, transcribeAudioV2 none call pt =
      ⟨.error (.config "API Key is missing"), 0⟩ ∧
      transcribeAudioV2 (some "") call pt = ⟨.error (.config "API Key is missing"), 0⟩) ∧
    (∀ call pc, checkScamRiskV2 none call pc =
      ⟨.error (.config "API Key is missing"), 0⟩ ∧
      checkScamRiskV2 (some "") call pc = ⟨.error (.config "API Key is missing"), 0⟩) := by
  exact ⟨fun _ _ => ⟨rfl, rfl⟩, fun _ _ => ⟨rfl, rfl⟩, fun _ _ => ⟨rfl, rfl⟩,
         fun _ _ => ⟨rfl, rfl⟩, fun _ _ => ⟨rfl, rfl⟩, fun _ _ => ⟨rfl, rfl⟩,
         fun _ _ => ⟨rfl, rfl⟩⟩

/-- Invariant of the scheduling fold: with non-negative durations, the final
cursor is at least the initial one, every scheduled segment starts no earlier
than the initial cursor and ends no later than the final cursor, and the
scheduled segments are pairwise back-to-back ordered. -/
theorem scheduleAll_invariant (evs : List (ℚ × ℚ)) :
    ∀ c0 : ℚ, (∀ p ∈ evs, 0 ≤ p.2) →
    c0 ≤ (scheduleAll c0 evs).2 ∧
    (∀ p ∈ (scheduleAll c0 evs).1, c0 ≤ p.1 ∧ p.1 + p.2 ≤ (scheduleAll c0 evs).2) ∧
    (scheduleAll c0 evs).1.Pairwise (fun a b => a.1 + a.2 ≤ b.1) := by
  induction evs with
  | nil =>
    intro c0 _
    refine ⟨le_refl _, ?_, List.Pairwise.nil⟩
    intro p hp
    simp [scheduleAll] at hp
  | cons hd tl ih =>
    intro c0 hdur
    obtain ⟨t, d⟩ := hd
    have hd0 : 0 ≤ d := hdur (t, d) (List.mem_cons_self _ _)
    have htl : ∀ p ∈ tl, 0 ≤ p.2 := fun p hp => hdur p (List.mem_cons_of_mem _ hp)
    have hstart : c0 ≤ max c0 t := le_max_left _ _
    have ihc := ih (max c0 t + d) htl
    obtain ⟨ihfin, ihmem, ihpw⟩ := ihc
    have hc0fin : c0 ≤ (scheduleAll (max c0 t + d) tl).2 := by
      calc c0 ≤ max c0 t := hstart
        _ ≤ max c0 t + d := by linarith
        _ ≤ _ := ihfin
    constructor
    · simpa [scheduleAll, scheduleSegment] using hc0fin
    constructor
    · intro p hp
      simp only [scheduleAll, scheduleSegment, List.mem_cons] at hp ⊢
      rcases hp with hp | hp
      · subst hp
        exact ⟨hstart, ihfin⟩
      · obtain ⟨h1, h2⟩ := ihmem p hp
        exact ⟨by linarith, h2⟩
    · simp only [scheduleAll, scheduleSegment, List.pairwise_cons]
      refine ⟨?_, ihpw⟩
      intro b hb
      exact (ihmem b hb).1

/-- C9: the output scheduling cursor is monotonically non-decreasing across
any sequence of queued audio segments, the first queued segment starts at
the maximum of the cursor and the current playback time, the cursor then
advances by the segment duration, and no two queued segments overlap in
scheduled time (each ends no later than every later one starts). -/
theorem c9_cursor_monotone_no_overlap (c0 : ℚ) (evs : List (ℚ × ℚ))
    (hdur : ∀ p ∈ evs, 0 ≤ p.2) :
    c0 ≤ (scheduleAll c0 evs).2 ∧
    (∀ t d rest, evs = (t, d) :: rest →
      (scheduleAll c0 evs).1.head? = some (max c0 t, d)) ∧
    (∀ t d : ℚ, scheduleSegment c0 t d = (max c0 t, max c0 t + d)) ∧
    noOverlap (scheduleAll c0 evs).1 := by
  obtain ⟨h1, _, h3⟩ := scheduleAll_invariant evs c0 hdur
  refine ⟨h1, ?_, fun t d => rfl, h3⟩
  intro t d rest hevs
  subst hevs
  simp [scheduleAll, scheduleSegment]

/-- C9 witness: scheduling two segments of durations 2 and 3, arriving at
clock times 0 and 1, from cursor 0: the cursor is advanced monotonically and
the scheduled segments do not overlap. -/
theorem c9_cursor_witness :
    (∀ p ∈ [((0 : ℚ), (2 : ℚ)), (1, 3)], 0 ≤ p.2) ∧
    (0 : ℚ) ≤ (scheduleAll 0 [((0 : ℚ), (2 : ℚ)), (1, 3)]).2 ∧
    noOverlap (scheduleAll 0 [((0 : ℚ), (2 : ℚ)), (1, 3)]).1 := by
  have hdur : ∀ p ∈ [((0 : ℚ), (2 : ℚ)), (1, 3)], 0 ≤ p.2 := by norm_num
  have h := c9_cursor_monotone_no_overlap 0 [((0 : ℚ), (2 : ℚ)), (1, 3)] hdur
  exact ⟨hdur, h.1, h.2.2.2⟩
